import Mathlib

/-!
Shallow embedding of the TPE (payment terminal) driver of the caisseFacile
repository: the frame codec, the payload builders, the response parsers and
the session-driver decision logic of `src-tauri/src/tpe.rs` and
`src-tauri/src/protocols.rs`, together with theorems settling the frozen
claims about them.

Bytes are modelled as `Nat` (ASCII codes); Rust `String`/`&str` values that
are only ever inspected bytewise are modelled as `List Nat` of their bytes.
Rust strings whose byte-slicing can panic on a non-character-boundary are
modelled as `RStr`: the list of the string's characters, each given as its
UTF-8 byte sequence; a byte-slice panic is modelled as `Option.none`.
-/

namespace CaisseFacile

/-- ASCII codes of a Lean string literal (all strings compared in the model
are either pure ASCII or compared against themselves, so codepoints serve
as bytes consistently). -/
def strCodes (s : String) : List Nat := s.data.map Char.toNat

-- Protocol constants (tpe.rs / protocols.rs)
def STX : Nat := 0x02
def ETX : Nat := 0x03
def ACK : Nat := 0x06
def NAK : Nat := 0x15
def ENQ : Nat := 0x05
def EOT : Nat := 0x04
def CAN : Nat := 0x18

/-- `calculate_lrc`: XOR of all bytes, seed 0. -/
def calculate_lrc (data : List Nat) : Nat :=
  data.foldl (fun acc b => Nat.xor acc b) 0

/-- `frame_message`: STX, data, ETX, then LRC over `data ++ [ETX]`. -/
def frame_message (data : List Nat) : List Nat :=
  STX :: (data ++ [ETX, calculate_lrc (data ++ [ETX])])

/-- First index of `target` in a byte list; models `iter().position(|&b| b == target)`. -/
def firstPos (target : Nat) : List Nat → Option Nat
  | [] => none
  | b :: rest => if b = target then some 0 else (firstPos target rest).map (· + 1)

/-- Locate the frame body: positions of the first STX and the first ETX,
body strictly between them; `none` when the framing is absent
(`parse_response` / `parse_concert_response` framing logic). -/
def locate_body (data : List Nat) : Option (List Nat) :=
  match firstPos STX data, firstPos ETX data with
  | some s, some e =>
    if s < e then some ((data.drop (s + 1)).take (e - (s + 1))) else none
  | _, _ => none

/-- MSB-first decimal digits of `n`, fuel-indexed so that it is structural
(and hence kernel-evaluable); `decDigits` supplies sufficient fuel. -/
def decAux : Nat → Nat → List Nat
  | 0, n => [n % 10]
  | f + 1, n => if n < 10 then [n] else decAux f (n / 10) ++ [n % 10]

def decDigits (n : Nat) : List Nat := decAux n n

/-- `format!("{:0w}", n)`: ASCII decimal digits of `n`, left-padded with
'0' to width `w` (wider than `w` when `n` needs more digits, as in Rust). -/
def padFmt (w n : Nat) : List Nat :=
  let ds := (decDigits n).map (· + 48)
  List.replicate (w - ds.length) 48 ++ ds

/-- A Rust string as its list of characters, each one its UTF-8 byte run. -/
abbrev RStr := List (List Nat)

/-- The byte sequence of an `RStr` (what Rust `len()` and `as_bytes` see). -/
def rstrBytes (s : RStr) : List Nat := s.flatten

/-- Rust byte slice `s[..n]`: `some` of the first `n` bytes when `n` is a
character boundary, `none` (panic) otherwise. -/
def takeBytes : RStr → Nat → Option (List Nat)
  | _, 0 => some []
  | [], _ + 1 => none
  | c :: cs, n + 1 =>
    if c.length ≤ n + 1 then (takeBytes cs (n + 1 - c.length)).map (fun r => c ++ r)
    else none

/-- `format_pos_number` (protocols.rs) and the identical inline
normalization in `build_payment_message` (tpe.rs): first two bytes when the
byte length is ≥ 2 (panicking — `none` — when byte 2 is not a character
boundary), left-pad with '0' when the length is 1, `"01"` when empty. -/
def format_pos_number? (pos_number : RStr) : Option (List Nat) :=
  if 2 ≤ (rstrBytes pos_number).length then takeBytes pos_number 2
  else if (rstrBytes pos_number).length = 1 then some (48 :: rstrBytes pos_number)
  else some (strCodes "01")

/-- TLV field: `format!("{}{:03}{}", tag, value.len(), value)`. -/
def tlv (tag value : List Nat) : List Nat :=
  tag ++ padFmt 3 value.length ++ value

-- ===================================
-- Payload builders
-- ===================================

/-- The `data` string computed by `build_payment_message` (tpe.rs) before
framing, for the serial path of `send_tpe_payment`. `now_secs` models the
unix-seconds clock read used for the `TI` tag of the version-4 TLV branch.
`none` models the pos-slice panic. -/
def payment_message_data (amount_cents : Nat) (pos_number : RStr)
    (protocol_version : Nat) (now_secs : Nat) : Option (List Nat) :=
  (format_pos_number? pos_number).map fun pos_num =>
    if protocol_version = 2 then
      strCodes "0" ++ pos_num ++ padFmt 8 amount_cents ++ strCodes "978"
    else if protocol_version = 3 then
      strCodes "00" ++ pos_num ++ padFmt 12 amount_cents ++ strCodes "978"
    else if protocol_version = 4 then
      tlv (strCodes "CZ") (strCodes "0320") ++
      tlv (strCodes "CA") pos_num ++
      tlv (strCodes "CE") (strCodes "978") ++
      tlv (strCodes "CD") (strCodes "0") ++
      tlv (strCodes "CB") (padFmt 12 amount_cents) ++
      tlv (strCodes "TI") (padFmt 6 (now_secs % 1000000))
    else
      strCodes "00" ++ pos_num ++ padFmt 12 amount_cents ++ strCodes "978"

/-- `build_payment_message` (tpe.rs): the data string, framed. -/
def build_payment_message? (amount_cents : Nat) (pos_number : RStr)
    (protocol_version : Nat) (now_secs : Nat) : Option (List Nat) :=
  (payment_message_data amount_cents pos_number protocol_version now_secs).map frame_message

/-- `build_concert_v2` (protocols.rs), data before framing. -/
def concert_v2_data? (amount_cents : Nat) (pos_number : RStr) : Option (List Nat) :=
  (format_pos_number? pos_number).map fun pos_num =>
    strCodes "0" ++ pos_num ++ padFmt 8 amount_cents ++ strCodes "978"

/-- `build_concert_v2` (protocols.rs). -/
def build_concert_v2? (amount_cents : Nat) (pos_number : RStr) : Option (List Nat) :=
  (concert_v2_data? amount_cents pos_number).map frame_message

/-- `build_concert_v3_binary` (protocols.rs), data before framing. -/
def concert_v3_binary_data? (amount_cents : Nat) (pos_number : RStr) : Option (List Nat) :=
  (format_pos_number? pos_number).map fun pos_num =>
    strCodes "00" ++ pos_num ++ padFmt 12 amount_cents ++ strCodes "978"

/-- `build_concert_v3_binary` (protocols.rs). -/
def build_concert_v3_binary? (amount_cents : Nat) (pos_number : RStr) : Option (List Nat) :=
  (concert_v3_binary_data? amount_cents pos_number).map frame_message

/-- `build_concert_v3_tlv` (protocols.rs), data before framing. -/
def concert_v3_tlv_data? (amount_cents : Nat) (pos_number : RStr) : Option (List Nat) :=
  (format_pos_number? pos_number).map fun pos_num =>
    tlv (strCodes "CZ") (strCodes "0320") ++
    tlv (strCodes "CA") pos_num ++
    tlv (strCodes "CE") (strCodes "978") ++
    tlv (strCodes "BA") (strCodes "0") ++
    tlv (strCodes "CD") (strCodes "0") ++
    tlv (strCodes "CB") (padFmt 12 amount_cents)

/-- `build_concert_v3_tlv` (protocols.rs). -/
def build_concert_v3_tlv? (amount_cents : Nat) (pos_number : RStr) : Option (List Nat) :=
  (concert_v3_tlv_data? amount_cents pos_number).map frame_message

/-- The `CA` value of `build_caisse_ap_ip_message` (tpe.rs): the pos string
unchanged, defaulting to `"01"` when empty — no 2-digit normalization. -/
def caisse_ap_ca_value (pos_id : RStr) : List Nat :=
  if rstrBytes pos_id = [] then strCodes "01" else rstrBytes pos_id

/-- `build_caisse_ap_ip_message` (tpe.rs), data before framing; `now_secs`
models the unix-seconds clock read for the `TI` tag. -/
def caisse_ap_ip_data (amount_cents : Nat) (pos_id : RStr) (now_secs : Nat) : List Nat :=
  tlv (strCodes "CZ") (strCodes "0320") ++
  tlv (strCodes "CA") (caisse_ap_ca_value pos_id) ++
  tlv (strCodes "CE") (strCodes "978") ++
  tlv (strCodes "BA") (strCodes "0") ++
  tlv (strCodes "CD") (strCodes "0") ++
  tlv (strCodes "CB") (padFmt 12 amount_cents) ++
  tlv (strCodes "TI") (padFmt 6 (now_secs % 1000000)) ++
  tlv (strCodes "LB") (strCodes "CAISSE")

/-- `build_caisse_ap_ip_message` (tpe.rs). -/
def build_caisse_ap_ip_message (amount_cents : Nat) (pos_id : RStr) (now_secs : Nat) : List Nat :=
  frame_message (caisse_ap_ip_data amount_cents pos_id now_secs)

-- ===================================
-- Response parsing
-- ===================================

/-- The outcome record returned by `send_tpe_payment` (tpe.rs
`TpePaymentResponse`); strings are byte lists. -/
structure TpePaymentResponse where
  success : Bool
  transaction_result : List Nat
  amount_cents : Nat
  authorization_number : Option (List Nat)
  error_message : Option (List Nat)
  raw_response : Option (List Nat)
deriving DecidableEq, Repr

def isDigit (b : Nat) : Bool := 48 ≤ b && b ≤ 57

/-- ASCII-decimal parse of a byte run, as used for TLV length fields
(`str::parse::<usize>` on the all-digit strings the parsers feed it). -/
def parseDec? (l : List Nat) : Option Nat :=
  if l.isEmpty then none
  else if l.all isDigit then some (l.foldl (fun acc d => acc * 10 + (d - 48)) 0)
  else none

/-- Substring test, models `str::contains`. -/
def hasSub (hay pat : List Nat) : Bool :=
  (List.range (hay.length + 1)).any (fun i => (hay.drop i).take pat.length == pat)

/-- First byte index of a substring, models `str::find`. -/
def findSub (hay pat : List Nat) : Option Nat :=
  (List.range (hay.length + 1)).find? (fun i => (hay.drop i).take pat.length == pat)

/-- `extract_tlv_value` (tpe.rs): value of the first occurrence of `tag` in
`data` under the TAG(2)/LEN(3)/VALUE layout, empty on any failure. -/
def extract_tlv_value (data tag : List Nat) : List Nat :=
  match findSub data tag with
  | some pos =>
    let start := pos + 2
    if start + 3 ≤ data.length then
      match parseDec? ((data.drop start).take 3) with
      | some len =>
        if start + 3 + len ≤ data.length then (data.drop (start + 3)).take len else []
      | none => []
    else []
  | none => []

/-- The binary result-code extraction of `parse_response` (tpe.rs) and
`parse_concert_response` (protocols.rs): code window at body offset 1 (V2)
or offset 2 (V3), priority chain 00, 10, 01, else the V2 window. -/
def binary_result_code (body : List Nat) : List Nat :=
  if 3 ≤ body.length then
    let v2 := (body.drop 1).take 2
    let v3 := if 4 ≤ body.length then (body.drop 2).take 2 else []
    if v2 = strCodes "00" ∨ v3 = strCodes "00" then strCodes "00"
    else if v2 = strCodes "10" ∨ v3 = strCodes "10" then strCodes "10"
    else if v2 = strCodes "01" ∨ v3 = strCodes "01" then strCodes "01"
    else v2
  else strCodes "??"

/-- French message table of the binary branch of `parse_response` (tpe.rs). -/
def binary_error_message (code : List Nat) : List Nat :=
  if code = strCodes "01" then strCodes "Transaction annulée"
  else if code = strCodes "02" then strCodes "Carte refusée"
  else if code = strCodes "03" then strCodes "Erreur communication"
  else if code = strCodes "10" then strCodes "Fonction impossible"
  else if code = strCodes "11" then strCodes "Timeout"
  else strCodes "Transaction échouée"

/-- AF-code message table of the TLV branch of `parse_response` (tpe.rs). -/
def af_error_message (af : List Nat) : List Nat :=
  if af = strCodes "01" then strCodes "Transaction annulée"
  else if af = strCodes "02" then strCodes "Carte refusée"
  else if af = strCodes "03" then strCodes "Erreur communication"
  else if af = strCodes "09" then strCodes "Erreur format message (protocole incompatible)"
  else if af = strCodes "10" then strCodes "Fonction impossible"
  else if af = strCodes "11" then strCodes "Transaction abandonnée"
  else strCodes "Transaction non effectuée"

/-- `parse_response` (tpe.rs): locate the body, dispatch on the `AE`
substring to the TLV branch, otherwise the binary branch; no framing found
gives the invalid-format outcome. -/
def parse_response (data : List Nat) (amount_cents : Nat) (raw : List Nat) :
    TpePaymentResponse :=
  match locate_body data with
  | some body =>
    if hasSub body (strCodes "AE") then
      let ae := extract_tlv_value body (strCodes "AE")
      let af := extract_tlv_value body (strCodes "AF")
      if ae = strCodes "10" then
        ⟨true, strCodes "10", amount_cents, none, none, some raw⟩
      else
        ⟨false, strCodes "AE=" ++ ae ++ strCodes ",AF=" ++ af, amount_cents, none,
          some (af_error_message af ++ strCodes " (AE=" ++ ae ++ strCodes ", AF=" ++ af
            ++ strCodes ")"),
          some raw⟩
    else
      let result_code := binary_result_code body
      if result_code = strCodes "00" then
        ⟨true, strCodes "00", amount_cents, none, none, some raw⟩
      else
        ⟨false, result_code, amount_cents, none,
          some (binary_error_message result_code ++ strCodes " (code: " ++ result_code
            ++ strCodes ")"),
          some raw⟩
  | none =>
    ⟨false, strCodes "??", amount_cents, none,
      some (strCodes "Format de réponse invalide: " ++ raw), some raw⟩

-- ===================================
-- Caisse-AP-IP (TCP) session logic of send_tpe_payment
-- ===================================

/-- The robust TLV scanner of the TCP branch of `send_tpe_payment` (tpe.rs):
at each position try TAG(2)/LEN(3)/VALUE(LEN); on a length-parse failure or
an overrun, advance one byte and resynchronize. Fuel-indexed to be
structural; every step consumes at least one byte, so fuel = input length
suffices. -/
def parse_caisse_tags_aux : Nat → List Nat → List (List Nat × List Nat)
  | 0, _ => []
  | fuel + 1, t1 :: t2 :: l1 :: l2 :: l3 :: rest =>
    match parseDec? [l1, l2, l3] with
    | some vlen =>
      if vlen ≤ rest.length then
        ([t1, t2], rest.take vlen) :: parse_caisse_tags_aux fuel (rest.drop vlen)
      else parse_caisse_tags_aux fuel (t2 :: l1 :: l2 :: l3 :: rest)
    | none => parse_caisse_tags_aux fuel (t2 :: l1 :: l2 :: l3 :: rest)
  | _ + 1, _ => []

def parse_caisse_tags (bytes : List Nat) : List (List Nat × List Nat) :=
  parse_caisse_tags_aux bytes.length bytes

/-- `response_tags.iter().find(|(t, _)| t == tag).map(|(_, v)| v)`. -/
def find_tag (tags : List (List Nat × List Nat)) (tag : List Nat) : Option (List Nat) :=
  (tags.find? (fun p => p.1 == tag)).map Prod.snd

/-- The success decision of the TCP branch (tpe.rs lines around the
`DECISION` log): classic approval `CV=00` or `CO=00`, or a present
non-empty `AC` authorization code; `AL` is never consulted. -/
def caisse_decision (tags : List (List Nat × List Nat)) : Bool :=
  let cv := find_tag tags (strCodes "CV")
  let co := find_tag tags (strCodes "CO")
  let ac := find_tag tags (strCodes "AC")
  let has_auth_code := ac.elim false (fun v => !v.isEmpty)
  let is_approved_classic := cv == some (strCodes "00") || co == some (strCodes "00")
  is_approved_classic || has_auth_code

/-- The user-visible refusal message of the TCP branch: prefer `CO`, then
`CV`, then a bare refusal; absent on success. -/
def caisse_error_msg (tags : List (List Nat × List Nat)) : Option (List Nat) :=
  if caisse_decision tags then none
  else
    match find_tag tags (strCodes "CO") with
    | some co_val => some (strCodes "Paiement refusé (Code: " ++ co_val ++ strCodes ")")
    | none =>
      match find_tag tags (strCodes "CV") with
      | some cv_val =>
        some (strCodes "Paiement refusé (Validation: " ++ cv_val ++ strCodes ")")
      | none => some (strCodes "Paiement refusé")

/-- The outcome the TCP branch of `send_tpe_payment` builds from the raw
response bytes (the whole accumulated buffer, STX/ETX/LRC included, is fed
to the tag scanner). The source constructs the record with
`authorization_number: None` — the `auth_num` binding computed from `AC`
is left unused. -/
def caisse_ap_outcome (response : List Nat) (amount_cents : Nat) : TpePaymentResponse :=
  let tags := parse_caisse_tags response
  let success := caisse_decision tags
  ⟨success, if success then strCodes "APPROVED" else strCodes "REFUSED", amount_cents,
    none, caisse_error_msg tags, some response⟩

/-- What the TCP branch returns once its 150 s response loop has exited:
parse the buffer when data arrived, otherwise the no-response error. -/
def tcp_read_result (total : List Nat) (amount_cents : Nat) :
    Except (List Nat) TpePaymentResponse :=
  if 0 < total.length then Except.ok (caisse_ap_outcome total amount_cents)
  else Except.error (strCodes "No response from TPE (timeout)")

/-- The serial response loop's deadline check: past 120 s the call returns
`Err("Timeout (120s)")`, otherwise the loop continues (`none`). -/
def serial_deadline_error (elapsed_secs : Nat) : Option (List Nat) :=
  if 120 < elapsed_secs then some (strCodes "Timeout (120s)") else none

-- ===================================
-- Cancellation flag and the TCP response loop iteration
-- ===================================

/-- `TPE_CANCEL_FLAG.store(false)` at the start of `send_tpe_payment`. -/
def reset_cancel_flag (_flag : Bool) : Bool := false

/-- `TPE_CANCEL_FLAG.store(true)` in `cancel_tpe_transaction`. -/
def set_cancel_flag (_flag : Bool) : Bool := true

/-- The cancelled outcome built inside the TCP response loop. -/
def cancelled_response (amount_cents : Nat) : TpePaymentResponse :=
  ⟨false, strCodes "CANCELLED", amount_cents, none,
    some (strCodes "Transaction cancelled by user"), none⟩

/-- What one read attempt of the TCP response loop can observe. -/
inductive ReadEvent where
  | ok (bytes : List Nat)
  | wouldBlock
  | timedOut
  | fail (msg : List Nat)

/-- Result of one iteration of the TCP response loop: return from the call
(with the bytes written on the way out), keep looping, or leave the loop
and parse. -/
inductive LoopOutcome where
  | ret (written : List Nat) (resp : Except (List Nat) TpePaymentResponse)
  | next (buf : List Nat)
  | exit (buf : List Nat)

/-- One iteration of the TCP response loop of `send_tpe_payment`: the
cancellation flag is polled first and returns the cancelled outcome after
writing CAN CAN CAN EOT; otherwise a read is attempted — empty reads break
once data exists, data is appended and the loop exits on ETX,
WouldBlock/TimedOut retry, other errors return `Err`. -/
def tcp_loop_iter (cancel_flag : Bool) (buf : List Nat) (ev : ReadEvent)
    (amount_cents : Nat) : LoopOutcome :=
  if cancel_flag then
    LoopOutcome.ret [CAN, CAN, CAN, EOT] (Except.ok (cancelled_response amount_cents))
  else
    match ev with
    | ReadEvent.ok bytes =>
      if bytes.isEmpty then
        if 0 < buf.length then LoopOutcome.exit buf else LoopOutcome.next buf
      else
        let buf2 := buf ++ bytes
        if buf2.contains ETX then LoopOutcome.exit buf2 else LoopOutcome.next buf2
    | ReadEvent.wouldBlock => LoopOutcome.next buf
    | ReadEvent.timedOut => LoopOutcome.next buf
    | ReadEvent.fail msg =>
      LoopOutcome.ret [] (Except.error (strCodes "Read error: " ++ msg))

/-- `ConcertResponse` (protocols.rs). -/
structure ConcertResponse where
  success : Bool
  code : List Nat
  message : List Nat
deriving DecidableEq, Repr

/-- Success flag and French message table of `parse_concert_response`
(protocols.rs). -/
def concert_message_table (code : List Nat) : Bool × List Nat :=
  if code = strCodes "00" then (true, strCodes "Transaction acceptée")
  else if code = strCodes "01" then (false, strCodes "Transaction annulée")
  else if code = strCodes "02" then (false, strCodes "Carte refusée")
  else if code = strCodes "03" then (false, strCodes "Erreur communication")
  else if code = strCodes "10" then (false, strCodes "Fonction impossible")
  else if code = strCodes "11" then (false, strCodes "Timeout")
  else (false, strCodes "Erreur inconnue (" ++ code ++ strCodes ")")

/-- `parse_concert_response` (protocols.rs). -/
def parse_concert_response (data : List Nat) : ConcertResponse :=
  match locate_body data with
  | some body =>
    let code := binary_result_code body
    ⟨(concert_message_table code).1, code, (concert_message_table code).2⟩
  | none => ⟨false, strCodes "??", strCodes "Réponse invalide"⟩

/-- One-byte UTF-8 ASCII-digit character. -/
def isDigitChar (c : List Nat) : Bool :=
  match c with
  | [b] => isDigit b
  | _ => false

/-- Every character of the string is a single ASCII digit. -/
def allDigitChars (pos : RStr) : Bool := pos.all isDigitChar

-- ===================================
-- Helper lemmas
-- ===================================

theorem decAux_length_le (f : Nat) :
    ∀ (n k : Nat), 1 ≤ k → n < 10 ^ k → (decAux f n).length ≤ k := by
  induction f with
  | zero =>
    intro n k hk _
    simpa [decAux] using hk
  | succ f ih =>
    intro n k hk hn
    by_cases h10 : n < 10
    · simpa [decAux, h10] using hk
    · have hk2 : 2 ≤ k := by
        by_contra hlt
        have hk1 : k = 1 := by omega
        subst hk1
        simp [pow_one] at hn
        omega
      have hdiv : n / 10 < 10 ^ (k - 1) := by
        rw [Nat.div_lt_iff_lt_mul (by norm_num)]
        calc n < 10 ^ k := hn
        _ = 10 ^ (k - 1) * 10 := by
            conv_lhs => rw [show k = (k - 1) + 1 by omega]
            rw [pow_succ]
      have hrec := ih (n / 10) (k - 1) (by omega) hdiv
      simp only [decAux, if_neg h10, List.length_append, List.length_cons,
        List.length_nil]
      omega

theorem decDigits_length_le (n k : Nat) (hk : 1 ≤ k) (hn : n < 10 ^ k) :
    (decDigits n).length ≤ k := decAux_length_le n n k hk hn

theorem padFmt_length (w n : Nat) (h : (decDigits n).length ≤ w) :
    (padFmt w n).length = w := by
  simp [padFmt]
  omega

theorem padFmt_length_of_lt (w n : Nat) (hw : 1 ≤ w) (hn : n < 10 ^ w) :
    (padFmt w n).length = w :=
  padFmt_length w n (decDigits_length_le n w hw hn)

theorem takeBytes_length :
    ∀ (s : RStr) (n : Nat) (r : List Nat), takeBytes s n = some r → r.length = n := by
  intro s
  induction s with
  | nil =>
    intro n r h
    cases n with
    | zero =>
      simp [takeBytes] at h
      simp [← h]
    | succ m => simp [takeBytes] at h
  | cons c cs ih =>
    intro n r h
    cases n with
    | zero =>
      simp [takeBytes] at h
      simp [← h]
    | succ m =>
      by_cases hc : c.length ≤ m + 1
      · simp only [takeBytes, if_pos hc] at h
        obtain ⟨r', hr', hrr⟩ := Option.map_eq_some'.mp h
        have hr'len := ih (m + 1 - c.length) r' hr'
        subst hrr
        simp [List.length_append, hr'len]
        omega
      · simp [takeBytes, if_neg hc] at h

theorem format_pos_number_some_length (pos : RStr) (pn : List Nat)
    (h : format_pos_number? pos = some pn) : pn.length = 2 := by
  unfold format_pos_number? at h
  by_cases h2 : 2 ≤ (rstrBytes pos).length
  · rw [if_pos h2] at h
    exact takeBytes_length pos 2 pn h
  · rw [if_neg h2] at h
    by_cases h1 : (rstrBytes pos).length = 1
    · rw [if_pos h1] at h
      injection h with h
      subst h
      simp [h1]
    · rw [if_neg h1] at h
      injection h with h
      subst h
      rfl

theorem firstPos_append_of_not_mem (x : Nat) (p r : List Nat) (h : x ∉ p) :
    firstPos x (p ++ x :: r) = some p.length := by
  induction p with
  | nil => simp [firstPos]
  | cons a p ih =>
    have ha : ¬ a = x := fun hax => h (by simp [hax])
    have hp : x ∉ p := fun hxp => h (by simp [hxp])
    simp [firstPos, ha, ih hp]

theorem hasSub_of_middle (x y pat : List Nat) : hasSub (x ++ (pat ++ y)) pat = true := by
  unfold hasSub
  rw [List.any_eq_true]
  refine ⟨x.length, ?_, ?_⟩
  · rw [List.mem_range]
    simp [List.length_append]
    omega
  · rw [List.drop_left, List.take_left]
    simp

theorem rstrBytes_length_single (pos : RStr) (hall : ∀ c ∈ pos, c.length = 1) :
    (rstrBytes pos).length = pos.length := by
  induction pos with
  | nil => rfl
  | cons c cs ih =>
    have hc : c.length = 1 := hall c (by simp)
    have hcs : ∀ c' ∈ cs, c'.length = 1 := fun c' h' => hall c' (by simp [h'])
    simp [rstrBytes] at ih ⊢
    rw [hc, ih hcs]
    omega

theorem takeBytes_single :
    ∀ (pos : RStr), (∀ c ∈ pos, c.length = 1) →
      ∀ n, n ≤ pos.length → takeBytes pos n = some ((rstrBytes pos).take n) := by
  intro pos
  induction pos with
  | nil =>
    intro _ n hn
    simp at hn
    subst hn
    simp [takeBytes, rstrBytes]
  | cons c cs ih =>
    intro hall n hn
    cases n with
    | zero => simp [takeBytes]
    | succ m =>
      have hc : c.length = 1 := hall c (by simp)
      have hcs : ∀ c' ∈ cs, c'.length = 1 := fun c' h' => hall c' (by simp [h'])
      have hm : m ≤ cs.length := by
        simp at hn
        omega
      obtain ⟨b, rfl⟩ : ∃ b, c = [b] := by
        cases c with
        | nil => simp at hc
        | cons b t =>
          cases t with
          | nil => exact ⟨b, rfl⟩
          | cons _ _ => simp at hc
      simp only [takeBytes, List.length_cons, List.length_nil]
      rw [if_pos (by omega)]
      rw [show m + 1 - (0 + 1) = m by omega]
      rw [ih hcs m hm]
      simp [rstrBytes]

theorem allDigitChars_single (pos : RStr) (h : allDigitChars pos = true) :
    ∀ c ∈ pos, c.length = 1 := by
  intro c hc
  have hd := List.all_eq_true.mp h c hc
  unfold isDigitChar at hd
  cases c with
  | nil => simp at hd
  | cons b t =>
    cases t with
    | nil => rfl
    | cons _ _ => simp at hd

theorem rstrBytes_all_digit (pos : RStr) (h : allDigitChars pos = true) :
    (rstrBytes pos).all isDigit = true := by
  induction pos with
  | nil => rfl
  | cons c cs ih =>
    have hc := List.all_eq_true.mp h c (by simp)
    have hcs : allDigitChars cs = true := by
      unfold allDigitChars at h ⊢
      simp only [List.all_cons, Bool.and_eq_true] at h
      exact h.2
    have hcall : c.all isDigit = true := by
      unfold isDigitChar at hc
      cases c with
      | nil => simp at hc
      | cons b t =>
        cases t with
        | nil => simpa using hc
        | cons _ _ => simp at hc
    have ih' := ih hcs
    simp only [rstrBytes] at ih'
    simp only [rstrBytes, List.flatten_cons, List.all_append, hcall, ih']
    rfl

end CaisseFacile

-- ===================================
-- Claim theorems
-- ===================================

namespace CaisseFacile

/-- C1 (counterexample): in `build_payment_message` — the builder actually
used by the serial path of `send_tpe_payment` — protocol_version 3 builds
the 19-char Concert V3 binary payload (not the TLV payload starting with
the CZ tag), version 4 builds the TLV payload (not the 19-char binary),
and the default (e.g. 5) is the 19-char binary, contradicting the claimed
table. -/
theorem C1_counterexample :
    payment_message_data 1234 [[48], [49]] 3 0 = some (strCodes "0001000000001234978") ∧
    (payment_message_data 1234 [[48], [49]] 3 0).map (List.take 2) = some (strCodes "00") ∧
    (payment_message_data 1234 [[48], [49]] 4 0).map (List.take 2) = some (strCodes "CZ") ∧
    payment_message_data 1234 [[48], [49]] 5 0 = some (strCodes "0001000000001234978") ∧
    strCodes "00" ≠ strCodes "CZ" := by decide

/-- C1 (amended): over a serial descriptor, `send_tpe_payment`'s
`build_payment_message` dispatches on the protocol_version byte as:
2 builds the Concert V2 binary payload, 3 builds the Concert V3 binary
19-char payload, 4 builds the Concert V3 TLV payload (starting with the CZ
tag, fields CZ CA CE CD CB TI), and any other value defaults to the
Concert V3 binary payload. -/
theorem C1_serial_protocol_dispatch (amount secs : Nat) (pos : RStr) (pn : List Nat)
    (hpos : format_pos_number? pos = some pn) :
    payment_message_data amount pos 2 secs = concert_v2_data? amount pos ∧
    payment_message_data amount pos 3 secs = concert_v3_binary_data? amount pos ∧
    payment_message_data amount pos 4 secs =
      some (tlv (strCodes "CZ") (strCodes "0320") ++ tlv (strCodes "CA") pn ++
        tlv (strCodes "CE") (strCodes "978") ++ tlv (strCodes "CD") (strCodes "0") ++
        tlv (strCodes "CB") (padFmt 12 amount) ++
        tlv (strCodes "TI") (padFmt 6 (secs % 1000000))) ∧
    (payment_message_data amount pos 4 secs).map (List.take 2) = some (strCodes "CZ") ∧
    (∀ v, v ≠ 2 → v ≠ 3 → v ≠ 4 →
      payment_message_data amount pos v secs = concert_v3_binary_data? amount pos) := by
  have h4 : payment_message_data amount pos 4 secs =
      some (tlv (strCodes "CZ") (strCodes "0320") ++ tlv (strCodes "CA") pn ++
        tlv (strCodes "CE") (strCodes "978") ++ tlv (strCodes "CD") (strCodes "0") ++
        tlv (strCodes "CB") (padFmt 12 amount) ++
        tlv (strCodes "TI") (padFmt 6 (secs % 1000000))) := by
    simp [payment_message_data, hpos]
  refine ⟨?_, ?_, h4, ?_, ?_⟩
  · simp [payment_message_data, concert_v2_data?, hpos]
  · simp [payment_message_data, concert_v3_binary_data?, hpos]
  · rw [h4]
    rfl
  · intro v hv2 hv3 hv4
    simp [payment_message_data, concert_v3_binary_data?, hpos, hv2, hv3, hv4]

/-- C1 witness: the dispatch theorem applied at a concrete input (version 4
payload starts with the CZ tag). -/
theorem C1_serial_protocol_dispatch_witness :
    (payment_message_data 77 [[48], [49]] 4 0).map (List.take 2) = some (strCodes "CZ") :=
  (C1_serial_protocol_dispatch 77 0 [[48], [49]] [48, 49] (by decide)).2.2.2.1

/-- C2: at the spec's stub response (CV=01, AC=123456, AL=1) the TCP branch
parses the AC tag and approves the payment, but the outcome it constructs
carries `authorization_number = none`: the `auth_num` binding computed from
AC is never stored in the record. -/
theorem C2_ac_dropped_eval :
    find_tag (parse_caisse_tags (frame_message (strCodes "CV00201AC006123456AL0011")))
        (strCodes "AC") = some (strCodes "123456") ∧
    (caisse_ap_outcome (frame_message (strCodes "CV00201AC006123456AL0011")) 1500).success
      = true ∧
    (caisse_ap_outcome (frame_message (strCodes "CV00201AC006123456AL0011")) 1500).transaction_result
      = strCodes "APPROVED" ∧
    (caisse_ap_outcome (frame_message (strCodes "CV00201AC006123456AL0011")) 1500).authorization_number
      = none := by decide

/-- C3: for every parsed Caisse-AP-IP tag list, the success flag is
(CV = "00") or (CO = "00") or (AC present and non-empty); a present
non-empty AC forces success whatever AL holds; and on failure the error
message prefers CO's value, then CV's value. -/
theorem C3_caisse_success_rule (tags : List (List Nat × List Nat)) :
    (caisse_decision tags = true ↔
      (find_tag tags (strCodes "CV") = some (strCodes "00") ∨
       find_tag tags (strCodes "CO") = some (strCodes "00") ∨
       ∃ v, find_tag tags (strCodes "AC") = some v ∧ v ≠ [])) ∧
    (∀ al v, find_tag tags (strCodes "AL") = some al →
       find_tag tags (strCodes "AC") = some v → v ≠ [] →
       caisse_decision tags = true) ∧
    (caisse_decision tags = false →
       caisse_error_msg tags = some (
         match find_tag tags (strCodes "CO"), find_tag tags (strCodes "CV") with
         | some co_val, _ => strCodes "Paiement refusé (Code: " ++ co_val ++ strCodes ")"
         | none, some cv_val =>
             strCodes "Paiement refusé (Validation: " ++ cv_val ++ strCodes ")"
         | none, none => strCodes "Paiement refusé")) := by
  have hiff : caisse_decision tags = true ↔
      (find_tag tags (strCodes "CV") = some (strCodes "00") ∨
       find_tag tags (strCodes "CO") = some (strCodes "00") ∨
       ∃ v, find_tag tags (strCodes "AC") = some v ∧ v ≠ []) := by
    unfold caisse_decision
    cases hac : find_tag tags (strCodes "AC") with
    | none => simp [hac]
    | some v => simp [hac, List.isEmpty_iff, or_assoc]
  refine ⟨hiff, ?_, ?_⟩
  · intro al v _ hv hne
    exact hiff.mpr (Or.inr (Or.inr ⟨v, hv, hne⟩))
  · intro hfalse
    unfold caisse_error_msg
    rw [if_neg (by simp [hfalse])]
    cases hco : find_tag tags (strCodes "CO") with
    | some co_val => simp
    | none =>
      cases hcv : find_tag tags (strCodes "CV") with
      | some cv_val => simp
      | none => simp

/-- C3 witness: the success rule applied at the concrete tag list
CV=01, AC=123456, AL=1. -/
theorem C3_caisse_success_rule_witness :
    caisse_decision [(strCodes "CV", strCodes "01"), (strCodes "AC", strCodes "123456"),
      (strCodes "AL", strCodes "1")] = true :=
  (C3_caisse_success_rule _).2.1 (strCodes "1") (strCodes "123456")
    (by decide) (by decide) (by decide)

end CaisseFacile

namespace CaisseFacile

/-- C4 (counterexample): well-framed synthetic V3 responses (2-char type
"00", result code at body offset 2) are misparsed for the codes 01, 02, 03
and 11: the V2 window at offset 1 reads "00" (or "01") first, so the
outcome's code is "00" (approved!) for inputs 01/02/03 and "01" for input
11, instead of the input code. -/
theorem C4_counterexample :
    (parse_response (frame_message (strCodes "0001")) 0 []).transaction_result
      = strCodes "00" ∧
    (parse_response (frame_message (strCodes "0001")) 0 []).success = true ∧
    (parse_response (frame_message (strCodes "0002")) 0 []).transaction_result
      = strCodes "00" ∧
    (parse_response (frame_message (strCodes "0003")) 0 []).transaction_result
      = strCodes "00" ∧
    (parse_response (frame_message (strCodes "0011")) 0 []).transaction_result
      = strCodes "01" ∧
    strCodes "00" ≠ strCodes "01" ∧ strCodes "00" ≠ strCodes "02" ∧
    strCodes "00" ≠ strCodes "03" ∧ strCodes "01" ≠ strCodes "11" := by decide

/-- C4 (amended): parsing a well-framed synthetic V2 response (1-char type
"0", code at body offset 1) yields the input code and the fixed French
message for every known code in the table; a synthetic V3 response (2-char
type "00", code at body offset 2) does so only for the codes "00" and
"10" — the claim's remaining V3 codes are misparsed through the V2 window.
Both the live `parse_response` (tpe.rs) and `parse_concert_response`
(protocols.rs) are covered. -/
theorem C4_binary_response_roundtrip :
    parse_response (frame_message (strCodes "000")) 0 []
      = ⟨true, strCodes "00", 0, none, none, some []⟩ ∧
    parse_response (frame_message (strCodes "001")) 0 []
      = ⟨false, strCodes "01", 0, none,
          some (strCodes "Transaction annulée (code: 01)"), some []⟩ ∧
    parse_response (frame_message (strCodes "002")) 0 []
      = ⟨false, strCodes "02", 0, none,
          some (strCodes "Carte refusée (code: 02)"), some []⟩ ∧
    parse_response (frame_message (strCodes "003")) 0 []
      = ⟨false, strCodes "03", 0, none,
          some (strCodes "Erreur communication (code: 03)"), some []⟩ ∧
    parse_response (frame_message (strCodes "010")) 0 []
      = ⟨false, strCodes "10", 0, none,
          some (strCodes "Fonction impossible (code: 10)"), some []⟩ ∧
    parse_response (frame_message (strCodes "011")) 0 []
      = ⟨false, strCodes "11", 0, none,
          some (strCodes "Timeout (code: 11)"), some []⟩ ∧
    parse_response (frame_message (strCodes "0000")) 0 []
      = ⟨true, strCodes "00", 0, none, none, some []⟩ ∧
    parse_response (frame_message (strCodes "0010")) 0 []
      = ⟨false, strCodes "10", 0, none,
          some (strCodes "Fonction impossible (code: 10)"), some []⟩ ∧
    parse_concert_response (frame_message (strCodes "000"))
      = ⟨true, strCodes "00", strCodes "Transaction acceptée"⟩ ∧
    parse_concert_response (frame_message (strCodes "001"))
      = ⟨false, strCodes "01", strCodes "Transaction annulée"⟩ ∧
    parse_concert_response (frame_message (strCodes "002"))
      = ⟨false, strCodes "02", strCodes "Carte refusée"⟩ ∧
    parse_concert_response (frame_message (strCodes "003"))
      = ⟨false, strCodes "03", strCodes "Erreur communication"⟩ ∧
    parse_concert_response (frame_message (strCodes "010"))
      = ⟨false, strCodes "10", strCodes "Fonction impossible"⟩ ∧
    parse_concert_response (frame_message (strCodes "011"))
      = ⟨false, strCodes "11", strCodes "Timeout"⟩ ∧
    parse_concert_response (frame_message (strCodes "0000"))
      = ⟨true, strCodes "00", strCodes "Transaction acceptée"⟩ ∧
    parse_concert_response (frame_message (strCodes "0010"))
      = ⟨false, strCodes "10", strCodes "Fonction impossible"⟩ := by decide

/-- C5 (counterexample): the Caisse-AP-IP TCP builder does not normalize
the pos field: for input "123" the CA tag on the wire carries the 3-char
value "123", not 2 ASCII digits. -/
theorem C5_counterexample :
    extract_tlv_value (caisse_ap_ip_data 1500 [[49], [50], [51]] 0) (strCodes "CA")
      = strCodes "123" ∧
    (strCodes "123").length = 3 ∧ (3 : Nat) ≠ 2 := by decide

/-- C5 (amended): for all-ASCII-digit pos strings, `format_pos_number` (used
by the V2/V3-binary/V3-TLV builders) yields exactly 2 ASCII digits by the
first-two / left-pad / default-"01" rule; the Caisse-AP-IP TCP builder
instead places the input unchanged in the CA tag (defaulting to "01" only
when the input is empty). -/
theorem C5_pos_field_normalization (amount secs : Nat) (pos : RStr)
    (hd : allDigitChars pos = true) :
    (∃ pn, format_pos_number? pos = some pn ∧ pn.length = 2 ∧ pn.all isDigit = true ∧
      pn = (if 2 ≤ (rstrBytes pos).length then (rstrBytes pos).take 2
            else if (rstrBytes pos).length = 1 then 48 :: rstrBytes pos
            else strCodes "01")) ∧
    hasSub (caisse_ap_ip_data amount pos secs)
      (tlv (strCodes "CA") (caisse_ap_ca_value pos)) = true ∧
    (rstrBytes pos ≠ [] → caisse_ap_ca_value pos = rstrBytes pos) := by
  have hsingle : ∀ c ∈ pos, c.length = 1 := allDigitChars_single pos hd
  have hdig : (rstrBytes pos).all isDigit = true := rstrBytes_all_digit pos hd
  refine ⟨?_, ?_, ?_⟩
  · by_cases h2 : 2 ≤ (rstrBytes pos).length
    · have hlen : (rstrBytes pos).length = pos.length := rstrBytes_length_single pos hsingle
      have htake : takeBytes pos 2 = some ((rstrBytes pos).take 2) :=
        takeBytes_single pos hsingle 2 (by omega)
      refine ⟨(rstrBytes pos).take 2, ?_, ?_, ?_, ?_⟩
      · unfold format_pos_number?
        rw [if_pos h2, htake]
      · rw [List.length_take]
        omega
      · rw [List.all_eq_true]
        intro x hx
        exact List.all_eq_true.mp hdig x (List.mem_of_mem_take hx)
      · rw [if_pos h2]
    · by_cases h1 : (rstrBytes pos).length = 1
      · refine ⟨48 :: rstrBytes pos, ?_, ?_, ?_, ?_⟩
        · unfold format_pos_number?
          rw [if_neg h2, if_pos h1]
        · simp [h1]
        · rw [List.all_cons]
          rw [hdig]
          rfl
        · rw [if_neg h2, if_pos h1]
      · refine ⟨strCodes "01", ?_, by decide, by decide, ?_⟩
        · unfold format_pos_number?
          rw [if_neg h2, if_neg h1]
        · rw [if_neg h2, if_neg h1]
  · unfold caisse_ap_ip_data
    simp only [List.append_assoc]
    exact hasSub_of_middle _ _ _
  · intro hne
    unfold caisse_ap_ca_value
    rw [if_neg hne]

/-- C5 witness: the normalization theorem applied at the concrete digit
string "123". -/
theorem C5_pos_field_normalization_witness :
    ∃ pn, format_pos_number? [[49], [50], [51]] = some pn ∧ pn.length = 2 ∧
      pn.all isDigit = true ∧
      pn = (if 2 ≤ (rstrBytes [[49], [50], [51]]).length
            then (rstrBytes [[49], [50], [51]]).take 2
            else if (rstrBytes [[49], [50], [51]]).length = 1
            then 48 :: rstrBytes [[49], [50], [51]]
            else strCodes "01") :=
  (C5_pos_field_normalization 1500 0 [[49], [50], [51]] (by decide)).1

/-- C6 (counterexample): for amount_cents = 10^8 (within [0, 2^32)) the
Concert V2 payload is 15 characters, not 14: the 8-wide zero-pad expands
for 9- and 10-digit amounts. -/
theorem C6_counterexample :
    (payment_message_data 100000000 [[48], [49]] 2 0).map List.length = some 15 ∧
    (concert_v2_data? 100000000 [[48], [49]]).map List.length = some 15 ∧
    (100000000 : Nat) < 2 ^ 32 ∧ (15 : Nat) ≠ 14 := by decide

/-- C6 (amended): the Concert V2 payload has exactly 14 characters for
every amount below 10^8 (not 2^32), and the Concert V3 binary payload has
exactly 19 characters for every amount below 2^32; both for the live
`build_payment_message` and the `build_concert_v2`/`build_concert_v3_binary`
builders. -/
theorem C6_payload_widths (amount secs : Nat) (pos : RStr) (pn : List Nat)
    (hpos : format_pos_number? pos = some pn) :
    (amount < 10 ^ 8 →
      (payment_message_data amount pos 2 secs).map List.length = some 14 ∧
      (concert_v2_data? amount pos).map List.length = some 14) ∧
    (amount < 2 ^ 32 →
      (payment_message_data amount pos 3 secs).map List.length = some 19 ∧
      (concert_v3_binary_data? amount pos).map List.length = some 19) := by
  have hpn : pn.length = 2 := format_pos_number_some_length pos pn hpos
  constructor
  · intro h8
    have hlen : (padFmt 8 amount).length = 8 :=
      padFmt_length_of_lt 8 amount (by norm_num) h8
    constructor
    · simp [payment_message_data, hpos, hpn, hlen, strCodes]
    · simp [concert_v2_data?, hpos, hpn, hlen, strCodes]
  · intro h32
    have h12 : amount < 10 ^ 12 := lt_trans h32 (by norm_num)
    have hlen : (padFmt 12 amount).length = 12 :=
      padFmt_length_of_lt 12 amount (by norm_num) h12
    constructor
    · simp [payment_message_data, hpos, hpn, hlen, strCodes]
    · simp [concert_v3_binary_data?, hpos, hpn, hlen, strCodes]

/-- C6 witness: the width theorem applied at amount 500, pos "01". -/
theorem C6_payload_widths_witness :
    (payment_message_data 500 [[48], [49]] 2 0).map List.length = some 14 :=
  ((C6_payload_widths 500 0 [[48], [49]] [48, 49] (by decide)).1 (by decide)).1

end CaisseFacile

namespace CaisseFacile

/-- C7: the cancellation flag is cleared at the start of every pay call and
set by every cancel call; whenever the flag is set, an iteration of the TCP
response loop writes CAN CAN CAN EOT and returns the cancelled outcome
(success=false, result code "CANCELLED", message "Transaction cancelled by
user") as an Ok value, never an Err. -/
theorem C7_cancellation_flow :
    (∀ f : Bool, reset_cancel_flag f = false) ∧
    (∀ f : Bool, set_cancel_flag f = true) ∧
    (∀ (buf : List Nat) (ev : ReadEvent) (a : Nat),
      tcp_loop_iter true buf ev a
        = LoopOutcome.ret [CAN, CAN, CAN, EOT] (Except.ok (cancelled_response a))) ∧
    (∀ a : Nat, (cancelled_response a).success = false ∧
      (cancelled_response a).transaction_result = strCodes "CANCELLED" ∧
      (cancelled_response a).error_message
        = some (strCodes "Transaction cancelled by user")) :=
  ⟨fun _ => rfl, fun _ => rfl, fun _ _ _ => rfl, fun _ => ⟨rfl, rfl, rfl⟩⟩

/-- C8 (counterexample): when the TCP 150-second deadline passes with no
data, the pay call surfaces Err("No response from TPE (timeout)"), not
Err("Timeout (150s)"). -/
theorem C8_counterexample :
    tcp_read_result [] 0 = Except.error (strCodes "No response from TPE (timeout)") ∧
    strCodes "No response from TPE (timeout)" ≠ strCodes "Timeout (150s)" :=
  ⟨rfl, by decide⟩

/-- C8 (amended): past the total-transaction deadline with no response, the
serial path surfaces Err("Timeout (120s)") and the TCP path surfaces
Err("No response from TPE (timeout)"). -/
theorem C8_timeout_errors (e : Nat) (he : 120 < e) :
    serial_deadline_error e = some (strCodes "Timeout (120s)") ∧
    ∀ a : Nat, tcp_read_result [] a
      = Except.error (strCodes "No response from TPE (timeout)") := by
  refine ⟨?_, fun a => rfl⟩
  simp [serial_deadline_error, he]

/-- C8 witness: the timeout theorem applied at 121 elapsed seconds. -/
theorem C8_timeout_errors_witness :
    serial_deadline_error 121 = some (strCodes "Timeout (120s)") :=
  (C8_timeout_errors 121 (by decide)).1

/-- C9 (counterexample): for the payload [ETX], locating the body of its
frame recovers the empty body, not the payload: the first ETX of the frame
is the payload byte itself. -/
theorem C9_counterexample :
    locate_body (frame_message [ETX]) = some [] ∧
    some ([] : List Nat) ≠ some [ETX] := by decide

/-- C9 (amended): for every payload p that does not contain the ETX byte,
locating the frame body in Encode(p) recovers exactly p. -/
theorem C9_frame_body_roundtrip (p : List Nat) (h : ETX ∉ p) :
    locate_body (frame_message p) = some p := by
  have hetx0 : firstPos ETX (p ++ ETX :: [calculate_lrc (p ++ [ETX])]) = some p.length :=
    firstPos_append_of_not_mem ETX p [calculate_lrc (p ++ [ETX])] h
  have h1 : firstPos STX (frame_message p) = some 0 := by
    simp [frame_message, firstPos]
  have h2 : firstPos ETX (frame_message p) = some (p.length + 1) := by
    show firstPos ETX (STX :: (p ++ ETX :: [calculate_lrc (p ++ [ETX])])) = _
    simp only [firstPos, if_neg (show ¬ STX = ETX by decide)]
    rw [hetx0]
    rfl
  simp only [locate_body, h1, h2]
  rw [if_pos (Nat.succ_pos p.length)]
  show some ((p ++ ETX :: [calculate_lrc (p ++ [ETX])]).take p.length) = some p
  rw [List.take_left]

/-- C9 witness: the round-trip theorem applied at the concrete V3 binary
payload. -/
theorem C9_frame_body_roundtrip_witness :
    locate_body (frame_message (strCodes "0001000000001234978"))
      = some (strCodes "0001000000001234978") :=
  C9_frame_body_roundtrip (strCodes "0001000000001234978") (by decide)

/-- C10 (counterexample): for the 1-character input "€" (3 UTF-8 bytes, so
len() ≥ 2 but byte 2 is not a character boundary) the pos normalization
slice pos_number[..2] panics, so the payload builders do not return
normally. -/
theorem C10_counterexample :
    2 ≤ (rstrBytes [[226, 130, 172]]).length ∧
    format_pos_number? [[226, 130, 172]] = none ∧
    build_payment_message? 100 [[226, 130, 172]] 2 0 = none ∧
    build_concert_v2? 100 [[226, 130, 172]] = none := by decide

/-- C10 (amended): the payload builders return normally (no panic) for
every amount and protocol version whenever the pos string is shorter than
2 bytes or byte 2 is a character boundary — in particular for every ASCII
pos string. -/
theorem C10_builders_no_panic (amount version secs : Nat) (pos : RStr)
    (h : (rstrBytes pos).length < 2 ∨ (takeBytes pos 2).isSome = true) :
    (format_pos_number? pos).isSome = true ∧
    (build_payment_message? amount pos version secs).isSome = true ∧
    (build_concert_v2? amount pos).isSome = true ∧
    (build_concert_v3_binary? amount pos).isSome = true ∧
    (build_concert_v3_tlv? amount pos).isSome = true := by
  have hf : (format_pos_number? pos).isSome = true := by
    unfold format_pos_number?
    by_cases h2 : 2 ≤ (rstrBytes pos).length
    · rw [if_pos h2]
      rcases h with h | h
      · omega
      · exact h
    · rw [if_neg h2]
      by_cases h1 : (rstrBytes pos).length = 1
      · rw [if_pos h1]
        rfl
      · rw [if_neg h1]
        rfl
  refine ⟨hf, ?_, ?_, ?_, ?_⟩ <;>
    simp [build_payment_message?, payment_message_data, build_concert_v2?,
      concert_v2_data?, build_concert_v3_binary?, concert_v3_binary_data?,
      build_concert_v3_tlv?, concert_v3_tlv_data?, Option.isSome_map', hf]

/-- C10 witness: the no-panic theorem applied at the ASCII pos "01". -/
theorem C10_builders_no_panic_witness :
    (build_payment_message? 100 [[48], [49]] 2 0).isSome = true :=
  (C10_builders_no_panic 100 2 0 [[48], [49]] (Or.inr (by decide))).2.1

end CaisseFacile
